import Mathlib

/-!
Shallow embedding of the egui_term adapter layer (src/backend/mod.rs and
src/theme.rs). f32 values are modelled as rationals; the Rust numeric casts
`as u16` / `as usize` (truncate toward zero, saturate at the type bounds)
are modelled explicitly. Engine-owned state (the alacritty grid, the pty
notifier) is represented abstractly: commands return the bytes they write
and effect markers rather than performing IO.
-/

namespace EguiTerm

/-- Model of `types.rs::Size`: a pair of f32 dimensions, as rationals. -/
structure Size where
  width : ℚ
  height : ℚ
deriving DecidableEq, Repr

/-- Rust `as u16` cast from f32: truncate toward zero, saturate to [0, 65535];
NaN and negatives go to 0 (negatives have no rational NaN counterpart). -/
def castF32U16 (q : ℚ) : Nat :=
  if q ≤ 0 then 0 else min 65535 (⌊q⌋).toNat

/-- Rust `as usize` cast from f32: truncate toward zero, saturate to
[0, 2^64 - 1]. -/
def castF32Usize (q : ℚ) : Nat :=
  if q ≤ 0 then 0 else min (2 ^ 64 - 1) (⌊q⌋).toNat

/-- Rust f32 division followed by `as u16`: division by zero yields ±infinity
or NaN in f32, which the saturating cast sends to 65535 (positive numerator)
or 0; otherwise it is the exact quotient cast. -/
def divCastU16 (num den : ℚ) : Nat :=
  if den = 0 then (if 0 < num then 65535 else 0) else castF32U16 (num / den)

/-- Model of `backend/mod.rs::TerminalSize` (all integer fields are u16). -/
structure TerminalSize where
  cell_width : Nat
  cell_height : Nat
  num_cols : Nat
  num_lines : Nat
  layout_size : Size
deriving DecidableEq, Repr

/-- Model of `impl Default for TerminalSize`: 80 × 50 grid at 1 × 1 cell,
zero layout size. -/
def TerminalSize.default : TerminalSize :=
  { cell_width := 1, cell_height := 1, num_cols := 80, num_lines := 50
    layout_size := { width := 0, height := 0 } }

/-- Model of `alacritty_terminal::index::Point`: line is an i32 (negative in
scrollback), column a usize. -/
structure Point where
  line : Int
  column : Nat
deriving DecidableEq, Repr

/-- Model of `alacritty_terminal::term::viewport_to_point`: the absolute line
is the viewport-relative line minus the display offset. -/
def viewport_to_point (display_offset : Nat) (line column : Nat) : Point :=
  { line := (line : Int) - (display_offset : Int), column := column }

/-- Model of `TerminalBackend::selection_point`: floor-divide the pixel
coordinates by the cell dimensions, clamp to the grid, translate by the
display offset. -/
def selection_point (x y : ℚ) (ts : TerminalSize) (display_offset : Nat) :
    Point :=
  let col := min (castF32Usize x / ts.cell_width) (ts.num_cols - 1)
  let line := min (castF32Usize y / ts.cell_height) (ts.num_lines - 1)
  viewport_to_point display_offset line col

/-- Model of `TerminalBackend::resize`: returns the new stored geometry and
whether the engine was notified (`on_resize` + grid resize both happen
exactly when the flag is true). -/
def resize (s : TerminalSize) (layout font : Size) : TerminalSize × Bool :=
  if layout = s.layout_size ∧ castF32U16 font.width = s.cell_width ∧
      castF32U16 font.height = s.cell_height then
    (s, false)
  else
    let lines := divCastU16 layout.height ((⌊font.height⌋ : ℤ) : ℚ)
    let cols := divCastU16 layout.width ((⌊font.width⌋ : ℤ) : ℚ)
    if 0 < lines ∧ 0 < cols then
      ({ cell_width := castF32U16 font.width
         cell_height := castF32U16 font.height
         num_cols := cols, num_lines := lines, layout_size := layout }, true)
    else
      (s, false)

/-- Model of the `alacritty_terminal::term::TermMode` bitflags consumed by the
adapter (only the flags the embedded code inspects). -/
structure TermMode where
  sgr_mouse : Bool
  utf8_mouse : Bool
  alt_screen : Bool
  alternate_scroll : Bool
deriving DecidableEq, Repr

/-- Model of `backend/mod.rs::MouseMode`. -/
inductive MouseMode where
  | Sgr : MouseMode
  | Normal : Bool → MouseMode
deriving DecidableEq, Repr

/-- Model of `impl From<TermMode> for MouseMode`: SGR wins over UTF-8,
otherwise the plain legacy mode. -/
def MouseMode.ofTermMode (m : TermMode) : MouseMode :=
  if m.sgr_mouse then MouseMode.Sgr else MouseMode.Normal m.utf8_mouse

/-- Model of `backend/mod.rs::MouseButton` (the enum discriminants are the
protocol button codes). -/
inductive MouseButton where
  | LeftButton | MiddleButton | RightButton
  | LeftMove | MiddleMove | RightMove | NoneMove
  | ScrollUp | ScrollDown | Other
deriving DecidableEq, Repr

/-- Discriminant of `MouseButton` as written in the source
(`button as u8`). -/
def MouseButton.code : MouseButton → Nat
  | .LeftButton => 0
  | .MiddleButton => 1
  | .RightButton => 2
  | .LeftMove => 32
  | .MiddleMove => 33
  | .RightMove => 34
  | .NoneMove => 35
  | .ScrollUp => 64
  | .ScrollDown => 65
  | .Other => 99

/-- Model of the `egui::Modifiers` flags that `process_mouse_report`
inspects. -/
structure Mods where
  shift : Bool
  alt : Bool
  command : Bool
deriving DecidableEq, Repr

/-- The modifier offset computed at the top of `process_mouse_report`:
shift adds 4, alt adds 8, command adds 16. -/
def Mods.offset (m : Mods) : Nat :=
  (if m.shift then 4 else 0) + (if m.alt then 8 else 0) +
    (if m.command then 16 else 0)

/-- Model of `TerminalBackend::sgr_mouse_report`: the exact string handed to
the notifier (its UTF-8 bytes are what reaches the pty). -/
def sgr_mouse_report (point : Point) (button : Nat) (pressed : Bool) :
    String :=
  "\x1b[<" ++ toString button ++ ";" ++ toString (point.column + 1) ++ ";" ++
    toString (point.line + 1) ++ (if pressed then "M" else "m")

/-- The two-byte extended coordinate encoding from
`normal_mouse_report::mouse_pos_encode` (each byte is a u8, hence mod 256). -/
def mouse_pos_encode (pos : Nat) : List Nat :=
  let pos := 32 + 1 + pos
  [(0xC0 + pos / 64) % 256, (0x80 + pos % 64) % 256]

/-- Model of `TerminalBackend::normal_mouse_report`: `none` when the report is
suppressed by the coordinate bound, otherwise the byte list written to the
notifier. The single-byte coordinate pushes truncate through `as u8`
(mod 256; the line is an i32, so it is reduced via its low byte). -/
def normal_mouse_report (point : Point) (button : Nat) (is_utf8 : Bool) :
    Option (List Nat) :=
  let max_point : Int := if is_utf8 then 2015 else 223
  if point.line ≥ max_point ∨ (point.column : Int) ≥ max_point then
    none
  else
    let head : List Nat := [0x1b, 0x5b, 0x4d, (32 + button) % 256]
    let colBytes : List Nat :=
      if is_utf8 ∧ point.column ≥ 95 then mouse_pos_encode point.column
      else [(32 + 1 + point.column % 256) % 256]
    let lineBytes : List Nat :=
      if is_utf8 ∧ point.line ≥ 95 then
        mouse_pos_encode (point.line.toNat)
      else [(32 + 1 + (point.line % 256).toNat) % 256]
    some (head ++ colBytes ++ lineBytes)

/-- The bytes a mouse report writes: either the UTF-8 bytes of an SGR escape
string, a raw legacy byte list, or nothing (suppressed legacy report). -/
inductive MouseReportOutput where
  | sgr : String → MouseReportOutput
  | bytes : List Nat → MouseReportOutput
  | suppressed : MouseReportOutput
deriving DecidableEq, Repr

/-- Model of `TerminalBackend::process_mouse_report`: computes the modifier
offset, chooses the protocol from the terminal mode, and encodes. A release
in legacy mode always uses code `3 + mods` in place of the button code. The
u8 addition `button as u8 + mods` is modelled mod 256. -/
def process_mouse_report (mode : TermMode) (button : MouseButton) (m : Mods)
    (point : Point) (pressed : Bool) : MouseReportOutput :=
  let mods := m.offset
  match MouseMode.ofTermMode mode with
  | MouseMode.Sgr =>
      MouseReportOutput.sgr
        (sgr_mouse_report point ((button.code + mods) % 256) pressed)
  | MouseMode.Normal is_utf8 =>
      let code := if pressed then (button.code + mods) % 256
        else (3 + mods) % 256
      match normal_mouse_report point code is_utf8 with
      | some bs => MouseReportOutput.bytes bs
      | none => MouseReportOutput.suppressed

/-- The effect of a `Scroll` dispatch on the world outside the adapter:
nothing, bytes written to the pty, or a scroll of the engine's scrollback
display offset by the given delta. -/
inductive ScrollEffect where
  | noop : ScrollEffect
  | wroteBytes : List Nat → ScrollEffect
  | scrolledDisplay : Int → ScrollEffect
deriving DecidableEq, Repr

/-- Model of `TerminalBackend::scroll`: zero delta does nothing; with both
`ALTERNATE_SCROLL` and `ALT_SCREEN` set the delta becomes `|delta|` copies of
the 3-byte application cursor sequence `ESC O A` (delta > 0) or `ESC O B`
(delta < 0) written to the pty; otherwise the engine scrollback display is
scrolled by the delta. -/
def scroll (mode : TermMode) (delta : Int) : ScrollEffect :=
  if delta = 0 then ScrollEffect.noop
  else if mode.alternate_scroll ∧ mode.alt_screen then
    let line_cmd : Nat := if delta > 0 then 0x41 else 0x42
    ScrollEffect.wroteBytes
      (List.flatten (List.replicate delta.natAbs [0x1b, 0x4f, line_cmd]))
  else
    ScrollEffect.scrolledDisplay delta

/-- An RGB triple (each component a u8 value). -/
structure Rgb where
  r : Nat
  g : Nat
  b : Nat
deriving DecidableEq, Repr

/-- The cube component formula from `get_ansi256_colors`: 0 when the loop
component is 0, otherwise `component * 40 + 55`. -/
def cubeComponent (c : Nat) : Nat := if c = 0 then 0 else c * 40 + 55

/-- The association list built by the two loops of
`TerminalTheme::get_ansi256_colors`: the 6 × 6 × 6 cube inserted at keys
`16 + r*36 + g*6 + b`, then the 24-step grayscale ramp at keys `232 + i`
with value `i * 10 + 8`. Keys are distinct, so lookup order is immaterial. -/
def ansi256Entries : List (Nat × Rgb) :=
  ((List.range 6).flatMap fun r =>
    (List.range 6).flatMap fun g =>
      (List.range 6).map fun b =>
        (16 + r * 36 + g * 6 + b,
          { r := cubeComponent r, g := cubeComponent g,
            b := cubeComponent b })) ++
  ((List.range 24).map fun i =>
    (232 + i, { r := i * 10 + 8, g := i * 10 + 8, b := i * 10 + 8 }))

/-- Model of the `HashMap::get` lookup on the table built by
`get_ansi256_colors`. -/
def get_ansi256_color (index : Nat) : Option Rgb :=
  ansi256Entries.lookup index

/-- Model of the indexed arm of `TerminalTheme::get_color`: indices 0–15 read
the injected palette (abstracted to a function), larger indices read the
ansi256 table, defaulting to black when absent. -/
def get_color_indexed (palette : Nat → Rgb) (index : Nat) : Rgb :=
  if index ≤ 15 then palette index
  else
    match get_ansi256_color index with
    | some c => c
    | none => { r := 0, g := 0, b := 0 }

/-- The grid-coordinate span of a hovered hyperlink
(`RangeInclusive<Point>`). -/
structure Span where
  first : Point
  last : Point
deriving DecidableEq, Repr

/-- Model of `RenderableContent`, the adapter's render snapshot. The engine
grid and the cursor cell are engine-owned values the adapter only copies;
they are abstracted to opaque identifiers. -/
structure Snapshot where
  grid : Nat
  hovered_hyperlink : Option Span
  selectable_range : Option (Point × Point)
  cursor : Nat
  terminal_mode : TermMode
  terminal_size : TerminalSize
deriving DecidableEq, Repr

/-- Model of `backend/mod.rs::LinkAction`. -/
inductive LinkAction where
  | Clear | Hover | Open
deriving DecidableEq, Repr

/-- Model of `TerminalBackend::process_link_action`: `Hover` stores the
result of the viewport regex scan (supplied as the oracle `matchAt`,
modelling `regex_match_at` over the engine grid), `Clear` erases the stored
span, `Open` only reads the snapshot. -/
def process_link_action (matchAt : Point → Option Span) (sn : Snapshot)
    (action : LinkAction) (point : Point) : Snapshot :=
  match action with
  | LinkAction.Hover => { sn with hovered_hyperlink := matchAt point }
  | LinkAction.Clear => { sn with hovered_hyperlink := none }
  | LinkAction.Open => sn

/-- Model of `backend/mod.rs::BackendCommand`. -/
inductive BackendCommand where
  | Write : List Nat → BackendCommand
  | Scroll : Int → BackendCommand
  | Resize : Size → Size → BackendCommand
  | SelectStart : Nat → ℚ → ℚ → BackendCommand
  | SelectUpdate : ℚ → ℚ → BackendCommand
  | ProcessLink : LinkAction → Point → BackendCommand
  | MouseReport : MouseButton → Mods → Point → Bool → BackendCommand
deriving DecidableEq, Repr

/-- The adapter-owned state `process_command` can touch: the stored geometry
and the render snapshot. Writes to the pty, engine grid scrolls and engine
selection updates act on collaborator state outside this structure. -/
structure BackendState where
  size : TerminalSize
  last_content : Snapshot
deriving DecidableEq, Repr

/-- Model of `TerminalBackend::process_command` restricted to the
adapter-owned state: `Write`, `Scroll`, `SelectStart`, `SelectUpdate` and
`MouseReport` only notify the pty or mutate engine-owned state (selection,
scrollback) and never write to `self.size` or `self.last_content`; `Resize`
updates the stored geometry; `ProcessLink` forwards to
`process_link_action` on the snapshot. -/
def process_command (matchAt : Point → Option Span) (st : BackendState)
    (cmd : BackendCommand) : BackendState :=
  match cmd with
  | BackendCommand.Write _ => st
  | BackendCommand.Scroll _ => st
  | BackendCommand.Resize layout font =>
      { st with size := (resize st.size layout font).1 }
  | BackendCommand.SelectStart _ _ _ => st
  | BackendCommand.SelectUpdate _ _ => st
  | BackendCommand.ProcessLink action point =>
      { st with last_content :=
          process_link_action matchAt st.last_content action point }
  | BackendCommand.MouseReport _ _ _ _ => st

/-- Whether a command is a `ProcessLink`. -/
def BackendCommand.isProcessLink : BackendCommand → Bool
  | BackendCommand.ProcessLink _ _ => true
  | _ => false

/-- How a call into `open_link` terminates: a normal return or a panic that
unwinds through the caller. -/
inductive OpenOutcome where
  | returned : OpenOutcome
  | panicked : OpenOutcome
deriving DecidableEq, Repr

/-- Model of `TerminalBackend::open_link`: with no stored span it returns at
once; with a stored span it reconstructs the URL from the grid and hands it
to the OS opener (`open::that`), whose success is the parameter
`os_open_ok`; on failure the source calls
`unwrap_or_else(|_| panic!("link opening is failed"))`. -/
def open_link (hovered_hyperlink : Option Span) (os_open_ok : Bool) :
    OpenOutcome :=
  match hovered_hyperlink with
  | none => OpenOutcome.returned
  | some _ =>
      if os_open_ok then OpenOutcome.returned else OpenOutcome.panicked

/-- A concrete adapter state used to exercise the snapshot-mutation claims:
a hyperlink span is currently stored in the snapshot. -/
def sampleState : BackendState :=
  { size := TerminalSize.default
    last_content :=
      { grid := 0
        hovered_hyperlink :=
          some { first := { line := 0, column := 0 }
                 last := { line := 0, column := 3 } }
        selectable_range := none
        cursor := 0
        terminal_mode :=
          { sgr_mouse := false, utf8_mouse := false, alt_screen := false
            alternate_scroll := false }
        terminal_size := TerminalSize.default } }

/-- C7: dispatching `Resize({800,600}, {10,20})` on a fresh session with the
default geometry (80 columns × 50 lines at a 1 × 1 cell) results in a
geometry of 80 columns (800/10) and 30 lines (600/20, floor division). -/
theorem resize_fresh_scenario :
    (resize TerminalSize.default { width := 800, height := 600 }
        { width := 10, height := 20 }).1.num_cols = 80 ∧
    (resize TerminalSize.default { width := 800, height := 600 }
        { width := 10, height := 20 }).1.num_lines = 30 := by
  constructor <;>
    (norm_num [resize, TerminalSize.default, divCastU16, castF32U16]; rfl)

/-- C3: the legacy (non-SGR) mouse encoder emits no bytes at all when either
the line or the column meets or exceeds the protocol maximum, 223 without
UTF-8 mouse mode and 2015 with it, so it never writes a truncated or
malformed report for such coordinates. -/
theorem normal_mouse_report_suppressed_at_max (point : Point) (button : Nat)
    (is_utf8 : Bool)
    (h : point.line ≥ (if is_utf8 then 2015 else 223) ∨
      (point.column : Int) ≥ (if is_utf8 then 2015 else 223)) :
    normal_mouse_report point button is_utf8 = none := by
  simp only [normal_mouse_report]
  exact if_pos h

/-- Witness for C3 at line 2015 in UTF-8 mouse mode. -/
theorem normal_mouse_report_suppressed_at_max_witness :
    normal_mouse_report { line := 2015, column := 0 } 0 true = none :=
  normal_mouse_report_suppressed_at_max { line := 2015, column := 0 } 0 true
    (by decide)

/-- C4: with SGR mouse mode negotiated, the encodings of a press and of a
release of the same button at the same point with the same modifiers share a
common leading string and differ only in the final suffix character, M for
press versus m for release; the common part is
ESC [ < code ; column+1 ; line+1 with 1-based column and row. -/
theorem sgr_press_release_differ_only_in_suffix (mode : TermMode)
    (b : MouseButton) (m : Mods) (point : Point)
    (h : mode.sgr_mouse = true) :
    ∃ common : String,
      process_mouse_report mode b m point true =
        MouseReportOutput.sgr (common ++ "M") ∧
      process_mouse_report mode b m point false =
        MouseReportOutput.sgr (common ++ "m") ∧
      common = "\x1b[<" ++ toString ((b.code + m.offset) % 256) ++ ";" ++
        toString (point.column + 1) ++ ";" ++ toString (point.line + 1) := by
  refine ⟨"\x1b[<" ++ toString ((b.code + m.offset) % 256) ++ ";" ++
    toString (point.column + 1) ++ ";" ++ toString (point.line + 1),
    ?_, ?_, rfl⟩ <;>
    simp [process_mouse_report, MouseMode.ofTermMode, h, sgr_mouse_report]

/-- Witness for C4: left button, no modifiers, origin point. -/
theorem sgr_press_release_differ_only_in_suffix_witness :
    ∃ common : String,
      process_mouse_report
        { sgr_mouse := true, utf8_mouse := false, alt_screen := false
          alternate_scroll := false } MouseButton.LeftButton
        { shift := false, alt := false, command := false }
        { line := 0, column := 0 } true = MouseReportOutput.sgr (common ++ "M") ∧
      process_mouse_report
        { sgr_mouse := true, utf8_mouse := false, alt_screen := false
          alternate_scroll := false } MouseButton.LeftButton
        { shift := false, alt := false, command := false }
        { line := 0, column := 0 } false =
        MouseReportOutput.sgr (common ++ "m") ∧
      common = "\x1b[<" ++
        toString ((MouseButton.LeftButton.code +
          Mods.offset { shift := false, alt := false, command := false }) %
            256) ++ ";" ++
        toString ((0 : Nat) + 1) ++ ";" ++ toString ((0 : Int) + 1) :=
  sgr_press_release_differ_only_in_suffix
    { sgr_mouse := true, utf8_mouse := false, alt_screen := false
      alternate_scroll := false } MouseButton.LeftButton
    { shift := false, alt := false, command := false }
    { line := 0, column := 0 } rfl

/-- C5: with both alternate-screen and alternate-scroll active, a positive
scroll delta writes exactly delta copies of the application cursor-key up
sequence ESC O A (and never touches the scrollback display), and a zero
delta is a no-op in every mode. -/
theorem scroll_alt_screen_spec :
    (∀ (mode : TermMode) (delta : Int), mode.alternate_scroll = true →
       mode.alt_screen = true → 0 < delta →
       scroll mode delta = ScrollEffect.wroteBytes
         (List.flatten (List.replicate delta.natAbs [0x1b, 0x4f, 0x41]))) ∧
    (∀ mode : TermMode, scroll mode 0 = ScrollEffect.noop) := by
  constructor
  · intro mode delta h1 h2 h3
    have hne : delta ≠ 0 := by omega
    simp [scroll, hne, h1, h2, h3]
  · intro mode
    simp [scroll]

/-- Witness for C5: `Scroll(3)` writes exactly three ESC O A sequences. -/
theorem scroll_alt_screen_spec_witness :
    scroll
      { sgr_mouse := false, utf8_mouse := false, alt_screen := true
        alternate_scroll := true } 3 =
      ScrollEffect.wroteBytes
        [0x1b, 0x4f, 0x41, 0x1b, 0x4f, 0x41, 0x1b, 0x4f, 0x41] := by
  have h := scroll_alt_screen_spec.1
    { sgr_mouse := false, utf8_mouse := false, alt_screen := true
      alternate_scroll := true } 3 rfl rfl (by decide)
  simpa using h

/-- C10: in legacy (non-SGR) mouse mode a release event is encoded with
button code 3 plus the modifier offset instead of the actual button code, so
the emitted bytes do not depend on which button was released. -/
theorem legacy_release_code_spec (mode : TermMode) (b b' : MouseButton)
    (m : Mods) (point : Point) (h : mode.sgr_mouse = false) :
    process_mouse_report mode b m point false =
      process_mouse_report mode b' m point false ∧
    process_mouse_report mode b m point false =
      (match normal_mouse_report point ((3 + m.offset) % 256)
          mode.utf8_mouse with
       | some bs => MouseReportOutput.bytes bs
       | none => MouseReportOutput.suppressed) := by
  constructor <;> simp [process_mouse_report, MouseMode.ofTermMode, h]

/-- Witness for C10: releasing the left and the right button at the origin
produce the same legacy report. -/
theorem legacy_release_code_spec_witness :
    process_mouse_report
        { sgr_mouse := false, utf8_mouse := false, alt_screen := false
          alternate_scroll := false } MouseButton.LeftButton
        { shift := false, alt := false, command := false }
        { line := 0, column := 0 } false =
      process_mouse_report
        { sgr_mouse := false, utf8_mouse := false, alt_screen := false
          alternate_scroll := false } MouseButton.RightButton
        { shift := false, alt := false, command := false }
        { line := 0, column := 0 } false :=
  (legacy_release_code_spec
    { sgr_mouse := false, utf8_mouse := false, alt_screen := false
      alternate_scroll := false } MouseButton.LeftButton
    MouseButton.RightButton
    { shift := false, alt := false, command := false }
    { line := 0, column := 0 } rfl).1

/-- C9 counterexample: with a stored hyperlink span and a failing OS opener,
`open_link` panics (the source calls `unwrap_or_else(|_| panic!(..))`), so
the dispatch does not return normally. -/
theorem open_link_failure_cex :
    open_link
        (some { first := { line := 0, column := 0 }
                last := { line := 0, column := 5 } }) false =
      OpenOutcome.panicked ∧
    open_link
        (some { first := { line := 0, column := 0 }
                last := { line := 0, column := 5 } }) false ≠
      OpenOutcome.returned := by
  constructor <;> decide

/-- C9 amended: `ProcessLink(Open)` returns normally exactly when no span is
stored or the OS opener succeeds; a failed open with a stored span panics,
aborting the frame loop, instead of being swallowed. -/
theorem open_link_outcome (hovered : Option Span) (os_open_ok : Bool) :
    (open_link hovered os_open_ok = OpenOutcome.returned ↔
      (hovered = none ∨ os_open_ok = true)) ∧
    (open_link hovered os_open_ok = OpenOutcome.panicked ↔
      (hovered ≠ none ∧ os_open_ok = false)) := by
  cases hovered <;> cases os_open_ok <;> simp [open_link]

/-- C6: the 256-color table maps every cube index 16 + r*36 + g*6 + b (each
component below 6) to components that are 0 when the component is 0 and
40*component + 55 otherwise, maps every grayscale index 232 + s (s below 24)
to the uniform value 10*s + 8, and in particular resolves 16 to (0,0,0),
231 to (255,255,255), 232 to (8,8,8) and 255 to (238,238,238); indices of
16 and above resolve through this table (defaulting to black when absent),
independent of the palette. -/
theorem ansi256_resolution_spec :
    (∀ r < 6, ∀ g < 6, ∀ b < 6,
       get_ansi256_color (16 + r * 36 + g * 6 + b) =
         some { r := if r = 0 then 0 else 40 * r + 55
                g := if g = 0 then 0 else 40 * g + 55
                b := if b = 0 then 0 else 40 * b + 55 }) ∧
    (∀ s < 24,
       get_ansi256_color (232 + s) =
         some { r := 10 * s + 8, g := 10 * s + 8, b := 10 * s + 8 }) ∧
    get_ansi256_color 16 = some { r := 0, g := 0, b := 0 } ∧
    get_ansi256_color 231 = some { r := 255, g := 255, b := 255 } ∧
    get_ansi256_color 232 = some { r := 8, g := 8, b := 8 } ∧
    get_ansi256_color 255 = some { r := 238, g := 238, b := 238 } ∧
    (∀ (palette : Nat → Rgb), ∀ index : Nat, 16 ≤ index →
       get_color_indexed palette index =
         (get_ansi256_color index).getD { r := 0, g := 0, b := 0 }) := by
  refine ⟨?_, ?_, by decide, by decide, by decide, by decide, ?_⟩
  · decide
  · decide
  · intro palette index h
    have h15 : ¬ index ≤ 15 := by omega
    simp only [get_color_indexed, if_neg h15]
    cases get_ansi256_color index <;> rfl

/-- Witness for C6 at cube index (1,2,3) and grayscale step 5. -/
theorem ansi256_resolution_spec_witness :
    get_ansi256_color (16 + 1 * 36 + 2 * 6 + 3) =
      some { r := if 1 = 0 then 0 else 40 * 1 + 55
             g := if 2 = 0 then 0 else 40 * 2 + 55
             b := if 3 = 0 then 0 else 40 * 3 + 55 } ∧
    get_ansi256_color (232 + 5) =
      some { r := 10 * 5 + 8, g := 10 * 5 + 8, b := 10 * 5 + 8 } :=
  ⟨ansi256_resolution_spec.1 1 (by decide) 2 (by decide) 3 (by decide),
   ansi256_resolution_spec.2.1 5 (by decide)⟩

/-- C8 counterexample: `ProcessLink(Clear)` is a command other than sync,
yet it mutates the render snapshot (it erases the stored hovered-hyperlink
span), so the snapshot is not preserved by every non-sync command. -/
theorem snapshot_mutated_by_process_link_cex :
    (process_command (fun _ => none) sampleState
        (BackendCommand.ProcessLink LinkAction.Clear
          { line := 0, column := 0 })).last_content ≠
      sampleState.last_content := by
  decide

/-- C8 amended: outside sync, the only mutation of the render snapshot is by
`ProcessLink`, and only of its hovered-hyperlink field: every command that is
not a `ProcessLink` leaves the whole snapshot unchanged, and every command
(including `ProcessLink`) leaves the grid, selection range, terminal mode,
cursor cell and grid geometry fields unchanged. -/
theorem snapshot_mutation_scope (matchAt : Point → Option Span)
    (st : BackendState) (cmd : BackendCommand) :
    (cmd.isProcessLink = false →
      (process_command matchAt st cmd).last_content = st.last_content) ∧
    ((process_command matchAt st cmd).last_content.grid =
        st.last_content.grid ∧
     (process_command matchAt st cmd).last_content.selectable_range =
        st.last_content.selectable_range ∧
     (process_command matchAt st cmd).last_content.terminal_mode =
        st.last_content.terminal_mode ∧
     (process_command matchAt st cmd).last_content.cursor =
        st.last_content.cursor ∧
     (process_command matchAt st cmd).last_content.terminal_size =
        st.last_content.terminal_size) := by
  cases cmd <;>
    simp [process_command, BackendCommand.isProcessLink,
      process_link_action]
  case ProcessLink action point =>
    cases action <;> simp [process_link_action]

/-- Witness for C8 amended: a `Write` command preserves the snapshot of the
sample state. -/
theorem snapshot_mutation_scope_witness :
    (process_command (fun _ => none) sampleState
        (BackendCommand.Write [])).last_content =
      sampleState.last_content :=
  (snapshot_mutation_scope (fun _ => none) sampleState
    (BackendCommand.Write [])).1 rfl

/-- Unfolding of `resize` when the stored geometry already matches the
arguments: the early return. -/
theorem resize_unchanged (s : TerminalSize) (layout font : Size)
    (h : layout = s.layout_size ∧ castF32U16 font.width = s.cell_width ∧
      castF32U16 font.height = s.cell_height) :
    resize s layout font = (s, false) := by
  simp only [resize]
  rw [if_pos h]

/-- Unfolding of `resize` when the arguments differ from the stored geometry
but the computed grid is degenerate (zero lines or columns). -/
theorem resize_degenerate (s : TerminalSize) (layout font : Size)
    (hg : ¬(layout = s.layout_size ∧ castF32U16 font.width = s.cell_width ∧
      castF32U16 font.height = s.cell_height))
    (hp : ¬(0 < divCastU16 layout.height ((⌊font.height⌋ : ℤ) : ℚ) ∧
      0 < divCastU16 layout.width ((⌊font.width⌋ : ℤ) : ℚ))) :
    resize s layout font = (s, false) := by
  simp only [resize]
  rw [if_neg hg, if_neg hp]

/-- Unfolding of `resize` when the arguments differ from the stored geometry
and the computed grid is positive: the mutating branch. -/
theorem resize_applied (s : TerminalSize) (layout font : Size)
    (hg : ¬(layout = s.layout_size ∧ castF32U16 font.width = s.cell_width ∧
      castF32U16 font.height = s.cell_height))
    (hp : 0 < divCastU16 layout.height ((⌊font.height⌋ : ℤ) : ℚ) ∧
      0 < divCastU16 layout.width ((⌊font.width⌋ : ℤ) : ℚ)) :
    resize s layout font =
      ({ cell_width := castF32U16 font.width
         cell_height := castF32U16 font.height
         num_cols := divCastU16 layout.width ((⌊font.width⌋ : ℤ) : ℚ)
         num_lines := divCastU16 layout.height ((⌊font.height⌋ : ℤ) : ℚ)
         layout_size := layout }, true) := by
  simp only [resize]
  rw [if_neg hg, if_pos hp]

/-- C2: resize is idempotent: a second `Resize` with identical arguments
produces no further geometry mutation and no second resize notification, and
a `Resize` whose layout size and cell dimensions already equal the current
geometry is a no-op. -/
theorem resize_idempotent_spec :
    (∀ (s : TerminalSize) (layout font : Size),
       resize (resize s layout font).1 layout font =
         ((resize s layout font).1, false)) ∧
    (∀ (s : TerminalSize) (layout font : Size),
       layout = s.layout_size → castF32U16 font.width = s.cell_width →
       castF32U16 font.height = s.cell_height →
       resize s layout font = (s, false)) := by
  constructor
  · intro s layout font
    by_cases hg : layout = s.layout_size ∧
        castF32U16 font.width = s.cell_width ∧
        castF32U16 font.height = s.cell_height
    · rw [resize_unchanged s layout font hg]
      exact resize_unchanged s layout font hg
    · by_cases hp : 0 < divCastU16 layout.height ((⌊font.height⌋ : ℤ) : ℚ) ∧
          0 < divCastU16 layout.width ((⌊font.width⌋ : ℤ) : ℚ)
      · rw [resize_applied s layout font hg hp]
        exact resize_unchanged _ layout font ⟨rfl, rfl, rfl⟩
      · rw [resize_degenerate s layout font hg hp]
        exact resize_degenerate s layout font hg hp
  · intro s layout font h1 h2 h3
    exact resize_unchanged s layout font ⟨h1, h2, h3⟩

/-- Witness for C2: a double resize from the default geometry, and a no-op
resize matching the default geometry. -/
theorem resize_idempotent_spec_witness :
    resize
        (resize TerminalSize.default { width := 800, height := 600 }
          { width := 10, height := 20 }).1
        { width := 800, height := 600 } { width := 10, height := 20 } =
      ((resize TerminalSize.default { width := 800, height := 600 }
          { width := 10, height := 20 }).1, false) ∧
    resize TerminalSize.default { width := 0, height := 0 }
        { width := 1, height := 1 } =
      (TerminalSize.default, false) :=
  ⟨resize_idempotent_spec.1 TerminalSize.default
      { width := 800, height := 600 } { width := 10, height := 20 },
   resize_idempotent_spec.2 TerminalSize.default
      { width := 0, height := 0 } { width := 1, height := 1 } rfl
      (by norm_num [castF32U16, TerminalSize.default])
      (by norm_num [castF32U16, TerminalSize.default])⟩

/-- Shifting a saturated value by less than one cell does not change the
cell index it floor-divides to. -/
theorem min_div_shift (M c w a : Nat) (hw : 0 < w) (ha : a < w) :
    min M (c * w + a) / w = min M (c * w) / w := by
  rcases le_or_lt (c * w + a) M with h1 | h1
  · have h2 : c * w ≤ M := le_trans (Nat.le_add_right _ _) h1
    rw [min_eq_right h1, min_eq_right h2,
      Nat.div_eq_of_lt_le (Nat.le_add_right _ _)
        (by rw [Nat.succ_mul]; exact Nat.add_lt_add_left ha _),
      Nat.mul_div_cancel _ hw]
  · rcases le_or_lt (c * w) M with h2 | h2
    · rw [min_eq_left (le_of_lt h1), min_eq_right h2,
        Nat.div_eq_of_lt_le h2
          (by rw [Nat.succ_mul]; omega),
        Nat.mul_div_cancel _ hw]
    · rw [min_eq_left (le_of_lt h1), min_eq_left (le_of_lt h2)]

/-- The usize cast of a whole pixel count is the saturated count itself. -/
theorem castF32Usize_natCast (n : Nat) :
    castF32Usize (n : ℚ) = min (2 ^ 64 - 1) n := by
  unfold castF32Usize
  rcases Nat.eq_zero_or_pos n with h | h
  · subst h; norm_num
  · rw [if_neg (not_le.mpr (by exact_mod_cast h)), Int.floor_natCast,
      Int.toNat_natCast]

/-- The usize cast of a whole pixel count plus a nonnegative sub-cell offset
adds the floored offset before saturating. -/
theorem castF32Usize_natCast_add (n : Nat) (dx : ℚ) (h0 : 0 ≤ dx) :
    castF32Usize ((n : ℚ) + dx) = min (2 ^ 64 - 1) (n + (⌊dx⌋).toNat) := by
  unfold castF32Usize
  by_cases hle : (n : ℚ) + dx ≤ 0
  · have hn : n = 0 := by
      have hn0 : (n : ℚ) ≤ 0 := by linarith
      exact_mod_cast le_antisymm hn0 (Nat.cast_nonneg n)
    have hdx : dx = 0 := le_antisymm (by rw [hn] at hle; simpa using hle) h0
    subst hn; subst hdx
    norm_num
  · rw [if_neg hle, Int.floor_nat_add,
      Int.toNat_add (Int.natCast_nonneg n) (Int.floor_nonneg.mpr h0),
      Int.toNat_natCast]

/-- The floor-divided cell index computed by `selection_point` ignores the
sub-cell offset. -/
theorem cast_div_cell_invariant (c w : Nat) (hw : 0 < w) (dx : ℚ)
    (h0 : 0 ≤ dx) (h1 : dx < (w : ℚ)) :
    castF32Usize (((c * w : Nat) : ℚ) + dx) / w =
      castF32Usize ((c * w : Nat) : ℚ) / w := by
  rw [castF32Usize_natCast, castF32Usize_natCast_add _ _ h0]
  have ha : (⌊dx⌋).toNat < w := by
    have hfw : ⌊dx⌋ < (w : ℤ) := Int.floor_lt.mpr (by exact_mod_cast h1)
    omega
  exact min_div_shift _ c w _ hw ha

/-- C1: `selection_point` floor-divides each pixel coordinate by the cell
dimension, clamps the column to [0, cols-1] and the viewport line to
[0, lines-1], then translates the viewport line by the display offset; hence
all pixel positions within the bounds of one cell map to the same grid
coordinate regardless of sub-cell offset. -/
theorem selection_point_spec (ts : TerminalSize) (d : Nat)
    (hw : 0 < ts.cell_width) (hh : 0 < ts.cell_height)
    (_hc : 0 < ts.num_cols) (_hl : 0 < ts.num_lines) :
    (∀ (c l : Nat) (dx dy : ℚ), 0 ≤ dx → dx < (ts.cell_width : ℚ) →
       0 ≤ dy → dy < (ts.cell_height : ℚ) →
       selection_point (((c * ts.cell_width : Nat) : ℚ) + dx)
           (((l * ts.cell_height : Nat) : ℚ) + dy) ts d =
         selection_point ((c * ts.cell_width : Nat) : ℚ)
           ((l * ts.cell_height : Nat) : ℚ) ts d) ∧
    (∀ x y : ℚ,
       (selection_point x y ts d).column =
         min (castF32Usize x / ts.cell_width) (ts.num_cols - 1) ∧
       (selection_point x y ts d).column ≤ ts.num_cols - 1 ∧
       (selection_point x y ts d).line =
         ((min (castF32Usize y / ts.cell_height)
           (ts.num_lines - 1) : Nat) : Int) - (d : Int) ∧
       0 ≤ (selection_point x y ts d).line + (d : Int) ∧
       (selection_point x y ts d).line + (d : Int) ≤
         ((ts.num_lines - 1 : Nat) : Int)) := by
  constructor
  · intro c l dx dy hdx0 hdx1 hdy0 hdy1
    simp only [selection_point, viewport_to_point]
    rw [cast_div_cell_invariant c _ hw dx hdx0 hdx1,
      cast_div_cell_invariant l _ hh dy hdy0 hdy1]
  · intro x y
    simp only [selection_point, viewport_to_point]
    refine ⟨trivial, min_le_right _ _, trivial, ?_, ?_⟩
    · have := Nat.zero_le (min (castF32Usize y / ts.cell_height)
        (ts.num_lines - 1))
      omega
    · have := min_le_right (castF32Usize y / ts.cell_height)
        (ts.num_lines - 1)
      omega

/-- Witness for C1: a 10 × 20 cell geometry, 80 × 24 grid, display offset 5,
two pixel positions inside cell (3, 2). -/
theorem selection_point_spec_witness :
    selection_point (((3 * 10 : Nat) : ℚ) + 7)
        (((2 * 20 : Nat) : ℚ) + 19)
        { cell_width := 10, cell_height := 20, num_cols := 80
          num_lines := 24, layout_size := { width := 800, height := 480 } }
        5 =
      selection_point ((3 * 10 : Nat) : ℚ) ((2 * 20 : Nat) : ℚ)
        { cell_width := 10, cell_height := 20, num_cols := 80
          num_lines := 24, layout_size := { width := 800, height := 480 } }
        5 :=
  (selection_point_spec
    { cell_width := 10, cell_height := 20, num_cols := 80
      num_lines := 24, layout_size := { width := 800, height := 480 } }
    5 (by decide) (by decide) (by decide) (by decide)).1 3 2 7 19
    (by norm_num) (by norm_num) (by norm_num) (by norm_num)

end EguiTerm
